import Mathlib

set_option maxRecDepth 200000

/-!
# Verification of `gunpowder.nodes.hdf5_source.Hdf5Source`

A shallow embedding of `src/gunpowder/nodes/hdf5_source.py` (the `Hdf5Source`
batch provider) together with theorems checking the natural-language
specification against it.

The HDF5 file is modelled as a pure keyed store of N-dimensional integer
arrays (`Store`): the source only needs existence by key, a dataset's shape,
element access by index tuple, and an optional `resolution` attribute on a
dataset.  Auxiliary repository classes that `hdf5_source.py` uses from
modules outside the verified sources (`Roi`, `ProviderSpec`, `VolumeType`,
`Volume`, `Batch`) are modelled from the spec, as noted on each definition.

Stateful Python (attributes set by `setup`) is embedded as explicit state:
`setup` returns `Except SetupErr SourceState`, and `request_batch` /
`get_spec` take an `Option SourceState` (`none` = `setup` has not run, where
Python attribute access would fail fast).  Fallible code returns `Except`.

A bounded read against the store would be
`np.array(f[ds][roi.get_bounding_box()])`, logged as the dataset key plus
the per-axis half-open bounding box; `request_batch` returns such a log next
to its result.  The module, however, imports only `VolumeType` from
`gunpowder.volume` and still calls the bare name `Volume` in its read
statements; Python resolves the callable before evaluating its arguments,
so every request that passes validation raises `NameError` at the first
read statement, before any dataset region is read.  The embedding makes
this an explicit `nameErrorVolume` error with an empty read log.
-/

namespace Gunpowder

/-- Decidable equality on `Except`, so that concrete runs of the embedded
fallible operations can be settled by `decide`. -/
instance {ε α : Type} [DecidableEq ε] [DecidableEq α] :
    DecidableEq (Except ε α) := fun x y =>
  match x, y with
  | Except.ok a, Except.ok b =>
    if h : a = b then Decidable.isTrue (by rw [h])
    else Decidable.isFalse (fun he => by cases he; exact h rfl)
  | Except.ok _, Except.error _ =>
    Decidable.isFalse (fun he => Except.noConfusion he)
  | Except.error _, Except.ok _ =>
    Decidable.isFalse (fun he => Except.noConfusion he)
  | Except.error e, Except.error e2 =>
    if h : e = e2 then Decidable.isTrue (by rw [h])
    else Decidable.isFalse (fun he => by cases he; exact h rfl)

/-- Modelled from the spec: `gunpowder.volume.VolumeType`, the enumeration of
data kinds `{RAW, GT_LABELS, GT_MASK}` (module not among the verified
sources). -/
inductive VolumeType where
  | RAW
  | GT_LABELS
  | GT_MASK
deriving DecidableEq, Repr

/-- Modelled from the spec: `gunpowder.roi.Roi`, an N-dimensional half-open
box `[offset_i, offset_i + shape_i)` per axis, an offset sequence of integers
plus a shape sequence of nonnegative integers of the same length (module not
among the verified sources). -/
structure Roi where
  offset : List Int
  shape : List Nat
deriving DecidableEq, Repr

/-- Dimension of a ROI (length of its offset sequence). -/
def Roi.dims (r : Roi) : Nat := r.offset.length

/-- Modelled from the spec: `Roi.contains(other)` is true iff the two ROIs
have equal dimension and, for every axis `i`,
`other.offset_i >= offset_i` and
`other.offset_i + other.shape_i <= offset_i + shape_i`. -/
def Roi.contains (self other : Roi) : Bool :=
  self.dims = other.dims &&
  (List.range self.dims).all (fun i =>
    self.offset.getD i 0 ≤ other.offset.getD i 0 &&
    other.offset.getD i 0 + (other.shape.getD i 0 : Int) ≤
      self.offset.getD i 0 + (self.shape.getD i 0 : Int))

/-- Modelled from the spec: `Roi.get_bounding_box()`, the per-axis
`(offset_i, offset_i + shape_i)` pairs in axis order, suitable for driving a
bounded read against storage. -/
def Roi.get_bounding_box (r : Roi) : List (Int × Int) :=
  List.zipWith (fun o s => (o, o + (s : Int))) r.offset r.shape

/-- A dataset of the external array store: a shape, the element at each index
tuple, and the optional `resolution` attribute (`attrs['resolution']`). -/
structure Dataset where
  shape : List Nat
  data : List Nat → Int
  resolutionAttr : Option (List Nat)

/-- The external HDF5 file, modelled as a keyed store of datasets
(`ds in f` = `(f ds).isSome`, `f[ds]` = the dataset). -/
def Store : Type := String → Option Dataset

/-- Construction-time configuration of `Hdf5Source.__init__`. -/
structure Hdf5Source where
  filename : String
  raw_dataset : String
  gt_dataset : Option String
  gt_mask_dataset : Option String
  specified_resolution : Option (List Nat)

/-- Modelled from the spec: `gunpowder.provider_spec.ProviderSpec`, the cached
description of what the source can serve (module not among the verified
sources). -/
structure ProviderSpec where
  roi : Roi
  gt_roi : Option Roi
  has_gt : Bool
  has_gt_mask : Bool
deriving DecidableEq, Repr

/-- The errors `setup` can raise.  `configError` is the
`RuntimeError("%s not in %s")` for a missing dataset key, `dimMismatch` the
`assert(len(dims) == len(self.dims))` failure, `emptyReduction` the numpy
`ValueError` raised by `np.min`/`np.max` on an empty array, and `noDatasets`
the (unreachable) case of no configured dataset at all. -/
inductive SetupErr where
  | configError (key : String)
  | dimMismatch
  | emptyReduction
  | noDatasets
deriving DecidableEq, Repr

/-- The dims-accumulation loop of `setup`:
`for ds in datasets: skip None; raise if missing; first shape initializes;
later shapes must match in length and are folded by elementwise min`. -/
def scanDims (f : Store) : List (Option String) → Option (List Nat) →
    Except SetupErr (Option (List Nat))
  | [], acc => Except.ok acc
  | none :: rest, acc => scanDims f rest acc
  | some ds :: rest, acc =>
    match f ds with
    | none => Except.error (SetupErr.configError ds)
    | some d =>
      match acc with
      | none => scanDims f rest (some d.shape)
      | some dims =>
        if d.shape.length = dims.length then
          scanDims f rest (some (List.zipWith min dims d.shape))
        else
          Except.error SetupErr.dimMismatch

/-- All index tuples of an array of the given shape, i.e. the domain
enumerated by `np.where`. -/
def allIndices : List Nat → List (List Nat)
  | [] => [[]]
  | n :: rest => (List.range n).flatMap (fun i => (allIndices rest).map (i :: ·))

/-- Embeds `np.where(mask > 0)`: the index tuples of the strictly positive elements,
in enumeration order. -/
def positiveIndices (d : Dataset) : List (List Nat) :=
  (allIndices d.shape).filter (fun idx => 0 < d.data idx)

/-- Embeds `np.min` over a one-dimensional array: a `ValueError` on an empty array,
the least element otherwise. -/
def npMin (l : List Nat) : Except SetupErr Nat :=
  match l with
  | [] => Except.error SetupErr.emptyReduction
  | x :: xs => Except.ok (xs.foldl min x)

/-- Embeds `np.max` over a one-dimensional array: a `ValueError` on an empty array,
the greatest element otherwise. -/
def npMax (l : List Nat) : Except SetupErr Nat :=
  match l with
  | [] => Except.error SetupErr.emptyReduction
  | x :: xs => Except.ok (xs.foldl max x)

/-- Propagation of the first error through an elementwise fallible
computation, as a Python tuple comprehension over a fallible body does. -/
def mapExcept {α β : Type} (g : α → Except SetupErr β) :
    List α → Except SetupErr (List β)
  | [] => Except.ok []
  | a :: rest => do
    let v ← g a
    let vs ← mapExcept g rest
    return v :: vs

/-- Computes `min_good` of `setup`: per axis `d < n`, the minimum of the `d`-th
coordinates of the positive mask elements. -/
def minGood (good : List (List Nat)) (n : Nat) : Except SetupErr (List Nat) :=
  mapExcept (fun d => npMin (good.map (·.getD d 0))) (List.range n)

/-- Computes `max_good` of `setup`: per axis `d < n`, the maximum of the `d`-th
coordinates of the positive mask elements, plus one. -/
def maxGood (good : List (List Nat)) (n : Nat) : Except SetupErr (List Nat) :=
  mapExcept (fun d => (npMax (good.map (·.getD d 0))).map (· + 1)) (List.range n)

/-- The state `setup` caches on the source object: `self.dims` and
`self.spec`. -/
structure SourceState where
  dims : List Nat
  spec : ProviderSpec
deriving DecidableEq, Repr

/-- The ground-truth-ROI block of `setup`: load the mask, locate the positive
elements, and build `Roi(min_good, max_good - min_good)`. -/
def computeGtRoi (f : Store) (mask_ds : String) (dims : List Nat) :
    Except SetupErr Roi :=
  match f mask_ds with
  | none => Except.error (SetupErr.configError mask_ds)
  | some mask => do
    let good := positiveIndices mask
    let lo ← minGood good dims.length
    let hi ← maxGood good dims.length
    return { offset := lo.map (Int.ofNat ·),
             shape := List.zipWith (fun h l => h - l) hi lo }

/-- Embeds `Hdf5Source.setup`: accumulate `self.dims` over
`[self.raw_dataset, self.gt_mask_dataset, self.gt_mask_dataset]` (the list
exactly as written in the source), anchor `spec.roi` at the zero offset with
shape `dims`, compute `spec.gt_roi` when a mask dataset is configured, and
set the capability flags. -/
def setup (s : Hdf5Source) (f : Store) : Except SetupErr SourceState := do
  let dims? ← scanDims f
    [some s.raw_dataset, s.gt_mask_dataset, s.gt_mask_dataset] none
  match dims? with
  | none => Except.error SetupErr.noDatasets
  | some dims => do
    let roi : Roi := { offset := List.replicate dims.length 0, shape := dims }
    let gt_roi ← match s.gt_mask_dataset with
      | none => pure (none : Option Roi)
      | some m => (computeGtRoi f m dims).map some
    return { dims := dims,
             spec := { roi := roi,
                       gt_roi := gt_roi,
                       has_gt := s.gt_dataset.isSome,
                       has_gt_mask := s.gt_mask_dataset.isSome } }

/-- The `resolution` property: a construction-time resolution wins
unconditionally; otherwise `f[raw_dataset].attrs['resolution']` is returned
as given (a missing dataset or attribute raises `KeyError`, which the source
catches); otherwise a vector of ones of length `len(self.dims)` with a
logged warning.  The boolean records whether the warning was surfaced. -/
def resolution (s : Hdf5Source) (f : Store) (dims : List Nat) :
    List Nat × Bool :=
  match s.specified_resolution with
  | some r => (r, false)
  | none =>
    match (f s.raw_dataset).bind Dataset.resolutionAttr with
    | some r => (r, false)
    | none => (List.replicate dims.length 1, true)

/-- A batch request (`BatchSpec`): the requested data kinds and the input and
output ROIs. -/
structure BatchSpec where
  with_volumes : List VolumeType
  input_roi : Roi
  output_roi : Roi
deriving DecidableEq, Repr

/-- The errors `get_spec`/`request_batch` can raise.  `notInitialized` is the
Python `AttributeError` from touching `self.spec` before `setup`;
`capabilityGT`/`capabilityGTMask` are the two capability `RuntimeError`s;
`outOfBounds` carries the offending batch ROI and the source's own ROI, as
the two `RuntimeError("... ROI of batch %s outside of my ROI %s")` do;
`nameErrorVolume` is the Python `NameError` raised at the first read
statement, which calls the class `Volume` that the module never imports. -/
inductive ReqErr where
  | notInitialized
  | capabilityGT
  | capabilityGTMask
  | outOfBounds (batchRoi myRoi : Roi)
  | nameErrorVolume
deriving DecidableEq, Repr

/-- Whether an error is one of the two capability errors. -/
def ReqErr.isCapability : ReqErr → Bool
  | ReqErr.capabilityGT => true
  | ReqErr.capabilityGTMask => true
  | _ => false

/-- A bounded read issued against the store: `__read(f, ds, roi)`, i.e.
`np.array(f[ds][roi.get_bounding_box()])`, would be logged as the dataset
key and the bounding box it slices.  `request_batch`'s read log is provably
always empty: the `NameError` on `Volume` fires before the first `__read`
argument is ever evaluated. -/
structure ReadCall where
  dataset : String
  box : List (Int × Int)
deriving DecidableEq, Repr

/-- Modelled from the spec: `gunpowder.volume.Volume`, an array (here: the
read that produced it) plus the `interpolate` flag (module not among the
verified sources).  `hdf5_source.py` calls this class without ever
importing it — see `request_batch`. -/
structure Volume where
  read : ReadCall
  interpolate : Bool
deriving DecidableEq, Repr

/-- Modelled from the spec: `gunpowder.batch.Batch`, the result container of
one request: the request it answers, the resolution attached to its spec,
and the mapping from data kind to volume (module not among the verified
sources).  It is the declared success type of `request_batch`, though no
batch is ever completed — see `request_batch`. -/
structure Batch where
  spec : BatchSpec
  resolution : List Nat
  volumes : List (VolumeType × Volume)
deriving DecidableEq, Repr

/-- Embeds `Hdf5Source.get_spec`: returns `self.spec`; before `setup` the attribute
does not exist and the access fails fast. -/
def get_spec (st : Option SourceState) : Except ReqErr ProviderSpec :=
  match st with
  | none => Except.error ReqErr.notInitialized
  | some st => Except.ok st.spec

/-- Embeds `Hdf5Source.request_batch`: capability checks, then geometry
checks against `spec.roi`; on a request that passes both, the resolution is
resolved and attached to the batch spec (line 93) and the file is opened —
and then the first read statement (line 96) evaluates the bare name
`Volume`, which the module never imports (line 11 brings in only
`VolumeType`).  Python resolves the callable before its arguments, so the
`NameError` is raised before `__read` can slice any dataset: no read is
issued and no batch is returned on any path.  The result is paired with the
log of bounded reads issued against the store. -/
def request_batch (s : Hdf5Source) (st : Option SourceState) (f : Store)
    (req : BatchSpec) : Except ReqErr Batch × List ReadCall :=
  match st with
  | none => (Except.error ReqErr.notInitialized, [])
  | some st =>
    if VolumeType.GT_LABELS ∈ req.with_volumes && !st.spec.has_gt then
      (Except.error ReqErr.capabilityGT, [])
    else if VolumeType.GT_MASK ∈ req.with_volumes && !st.spec.has_gt_mask then
      (Except.error ReqErr.capabilityGTMask, [])
    else if !(st.spec.roi.contains req.input_roi) then
      (Except.error (ReqErr.outOfBounds req.input_roi st.spec.roi), [])
    else if !(st.spec.roi.contains req.output_roi) then
      (Except.error (ReqErr.outOfBounds req.output_roi st.spec.roi), [])
    else
      let _res := (resolution s f st.dims).1
      (Except.error ReqErr.nameErrorVolume, [])

/-! ## Concrete stores and sources used as test inputs -/

/-- A dataset filled with one constant value, carrying no attributes. -/
def constDataset (shape : List Nat) (v : Int) : Dataset :=
  { shape := shape, data := fun _ => v, resolutionAttr := none }

/-- A dataset that is positive exactly at one index tuple. -/
def spikeDataset (shape : List Nat) (spike : List Nat) : Dataset :=
  { shape := shape, data := fun idx => if idx = spike then 1 else 0,
    resolutionAttr := none }

/-- The store of the Extent Resolver example of the spec: raw of shape
`(10,20,30)`, labels of shape `(8,20,30)`, mask of shape `(10,20,30)`. -/
def exStore1 : Store := fun k =>
  if k = "raw" then some (constDataset [10, 20, 30] 1)
  else if k = "gt" then some (constDataset [8, 20, 30] 1)
  else if k = "mask" then some (spikeDataset [10, 20, 30] [0, 0, 0])
  else none

/-- A source over `exStore1` configured with all three dataset keys. -/
def exSource1 : Hdf5Source :=
  { filename := "ex1", raw_dataset := "raw", gt_dataset := some "gt",
    gt_mask_dataset := some "mask", specified_resolution := none }

/-- The state `setup` actually computes on `exSource1`/`exStore1`. -/
def exState1 : SourceState :=
  { dims := [10, 20, 30],
    spec := { roi := { offset := [0, 0, 0], shape := [10, 20, 30] },
              gt_roi := some { offset := [0, 0, 0], shape := [1, 1, 1] },
              has_gt := true, has_gt_mask := true } }

/-- A store holding only `raw` and `mask` — no `labels` dataset. -/
def exStore2 : Store := fun k =>
  if k = "raw" then some (constDataset [4, 4] 1)
  else if k = "mask" then some (spikeDataset [4, 4] [2, 2])
  else none

/-- A source over `exStore2` whose configured labels key `labels` does not
exist in the store. -/
def exSource2 : Hdf5Source :=
  { filename := "ex2", raw_dataset := "raw", gt_dataset := some "labels",
    gt_mask_dataset := some "mask", specified_resolution := none }

/-- The state `setup` actually computes on `exSource2`/`exStore2`. -/
def exState2 : SourceState :=
  { dims := [4, 4],
    spec := { roi := { offset := [0, 0], shape := [4, 4] },
              gt_roi := some { offset := [2, 2], shape := [1, 1] },
              has_gt := true, has_gt_mask := true } }

/-- A store whose mask dataset is identically zero. -/
def exStore3 : Store := fun k =>
  if k = "raw" then some (constDataset [4, 4] 1)
  else if k = "mask" then some (constDataset [4, 4] 0)
  else none

/-- A source over `exStore3` configured with the all-zero mask. -/
def exSource3 : Hdf5Source :=
  { filename := "ex3", raw_dataset := "raw", gt_dataset := none,
    gt_mask_dataset := some "mask", specified_resolution := none }

/-- The mask of the spec's ground-truth ROI example: shape `(5,5)`, positive
exactly at `(1,1)` and `(3,3)`. -/
def exMask4 : Dataset :=
  { shape := [5, 5],
    data := fun idx => if idx = [1, 1] then 1 else if idx = [3, 3] then 1 else 0,
    resolutionAttr := none }

/-- A store holding a `(5,5)` raw dataset and the example mask `exMask4`. -/
def exStore4 : Store := fun k =>
  if k = "raw" then some (constDataset [5, 5] 1)
  else if k = "mask" then some exMask4
  else none

/-- A source over `exStore4` configured with the example mask. -/
def exSource4 : Hdf5Source :=
  { filename := "ex4", raw_dataset := "raw", gt_dataset := none,
    gt_mask_dataset := some "mask", specified_resolution := none }

/-- The state `setup` actually computes on `exSource4`/`exStore4`. -/
def exState4 : SourceState :=
  { dims := [5, 5],
    spec := { roi := { offset := [0, 0], shape := [5, 5] },
              gt_roi := some { offset := [1, 1], shape := [3, 3] },
              has_gt := false, has_gt_mask := true } }

/-- What the claim says the ground-truth ROI is: it is present, and on every
axis `d` its offset is the minimum `lo` of the `d`-th coordinates of the
positive mask elements (attained by some positive element), and its shape is
`hi + 1 - lo` where `hi` is the maximum of those coordinates (also
attained). -/
def gtRoiIsBoundingBox (mask : Dataset) (st : SourceState) : Prop :=
  ∃ r, st.spec.gt_roi = some r ∧
    ∀ d, d < st.dims.length →
      ∃ (lo : Nat) (hi : Nat),
        r.offset.getD d 0 = Int.ofNat lo ∧
        r.shape.getD d 0 = hi + 1 - lo ∧
        (∃ idx ∈ positiveIndices mask, idx.getD d 0 = lo) ∧
        (∃ idx ∈ positiveIndices mask, idx.getD d 0 = hi) ∧
        (∀ idx ∈ positiveIndices mask, lo ≤ idx.getD d 0 ∧ idx.getD d 0 ≤ hi)

/-- A store with raw (carrying a stored resolution attribute `[2,2]`),
labels and mask datasets, all of shape `(4,6)`; the mask is positive exactly
at `(1,2)`. -/
def exStore5 : Store := fun k =>
  if k = "raw" then
    some { shape := [4, 6], data := fun _ => 1, resolutionAttr := some [2, 2] }
  else if k = "gt" then some (constDataset [4, 6] 2)
  else if k = "mask" then some (spikeDataset [4, 6] [1, 2])
  else none

/-- A source over `exStore5` configured with all three dataset keys and no
construction-time resolution. -/
def exSource5 : Hdf5Source :=
  { filename := "ex5", raw_dataset := "raw", gt_dataset := some "gt",
    gt_mask_dataset := some "mask", specified_resolution := none }

/-- The state `setup` actually computes on `exSource5`/`exStore5`. -/
def exState5 : SourceState :=
  { dims := [4, 6],
    spec := { roi := { offset := [0, 0], shape := [4, 6] },
              gt_roi := some { offset := [1, 2], shape := [1, 1] },
              has_gt := true, has_gt_mask := true } }

/-- A batch request whose input ROI sticks out of `exState5`'s overall ROI. -/
def reqOOB : BatchSpec :=
  { with_volumes := [VolumeType.RAW],
    input_roi := { offset := [0, 0], shape := [5, 6] },
    output_roi := { offset := [0, 0], shape := [4, 6] } }

/-- A batch request asking for ground-truth labels. -/
def reqCap : BatchSpec :=
  { with_volumes := [VolumeType.GT_LABELS],
    input_roi := { offset := [0, 0], shape := [2, 2] },
    output_roi := { offset := [0, 0], shape := [2, 2] } }

/-- A batch request over `exState5` asking for all three kinds, passing
every capability and geometry check. -/
def req8 : BatchSpec :=
  { with_volumes := [VolumeType.RAW, VolumeType.GT_LABELS, VolumeType.GT_MASK],
    input_roi := { offset := [1, 1], shape := [2, 2] },
    output_roi := { offset := [1, 2], shape := [1, 1] } }

/-- A batch request over `exState5` that does NOT ask for RAW, passing
every capability and geometry check. -/
def req10 : BatchSpec :=
  { with_volumes := [VolumeType.GT_LABELS],
    input_roi := { offset := [0, 0], shape := [4, 6] },
    output_roi := { offset := [1, 1], shape := [2, 2] } }

/-- A source over `exStore5` with a construction-time resolution `[5,5]`
that disagrees with the stored metadata `[2,2]`. -/
def exSource7a : Hdf5Source :=
  { filename := "ex7a", raw_dataset := "raw", gt_dataset := none,
    gt_mask_dataset := none, specified_resolution := some [5, 5] }

/-- A RAW-only batch request over `exState4`, passing every capability and
geometry check. -/
def req7 : BatchSpec :=
  { with_volumes := [VolumeType.RAW],
    input_roi := { offset := [0, 0], shape := [5, 5] },
    output_roi := { offset := [0, 0], shape := [5, 5] } }

/-! ## Helper lemmas -/

/-- Success of `npMin` is exactly `List.min?`. -/
theorem npMin_ok_iff {l : List Nat} {m : Nat} :
    npMin l = Except.ok m ↔ l.min? = some m := by
  cases l <;> simp [npMin, List.min?]

/-- Success of `npMax` is exactly `List.max?`. -/
theorem npMax_ok_iff {l : List Nat} {m : Nat} :
    npMax l = Except.ok m ↔ l.max? = some m := by
  cases l <;> simp [npMax, List.max?]

/-- A successful `npMin` returns an attained lower bound of its argument. -/
theorem npMin_ok_spec {l : List Nat} {m : Nat} (h : npMin l = Except.ok m) :
    m ∈ l ∧ ∀ b ∈ l, m ≤ b :=
  (List.min?_eq_some_iff (fun a => le_refl a) (fun a b => min_choice a b)
    (fun _ _ _ => le_min_iff)).mp (npMin_ok_iff.mp h)

/-- A successful `npMax` returns an attained upper bound of its argument. -/
theorem npMax_ok_spec {l : List Nat} {m : Nat} (h : npMax l = Except.ok m) :
    m ∈ l ∧ ∀ b ∈ l, b ≤ m :=
  (List.max?_eq_some_iff (fun a => le_refl a) (fun a b => max_choice a b)
    (fun _ _ _ => max_le_iff)).mp (npMax_ok_iff.mp h)

/-- A successful `mapExcept` run succeeds pointwise. -/
theorem mapExcept_forall₂ {α β : Type} {g : α → Except SetupErr β} :
    ∀ {l : List α} {out : List β}, mapExcept g l = Except.ok out →
      List.Forall₂ (fun a b => g a = Except.ok b) l out := by
  intro l
  induction l with
  | nil =>
    intro out h
    simp only [mapExcept] at h
    cases h
    exact List.Forall₂.nil
  | cons a rest ih =>
    intro out h
    simp only [mapExcept] at h
    cases hga : g a with
    | error e => rw [hga] at h; simp [Bind.bind, Except.bind] at h
    | ok v =>
      rw [hga] at h
      cases hrest : mapExcept g rest with
      | error e =>
        rw [hrest] at h; simp [Bind.bind, Except.bind] at h
      | ok vs =>
        rw [hrest] at h
        simp only [Bind.bind, Except.bind, pure, Except.pure] at h
        cases h
        exact List.Forall₂.cons hga (ih hrest)

/-- Reading `getD` at an in-bounds index gives `get`. -/
theorem getD_eq_get {α : Type} {dflt : α} :
    ∀ {l : List α} {d : Nat} (h : d < l.length), l.getD d dflt = l.get ⟨d, h⟩ := by
  intro l
  induction l with
  | nil => intro d h; cases h
  | cons x xs ih =>
    intro d h
    cases d with
    | zero => rfl
    | succ d => exact ih (Nat.lt_of_succ_lt_succ h)

/-- Pointwise success of a `mapExcept` over `List.range n`, read off at each
index via `getD`. -/
theorem mapExcept_range_ok
    {g : Nat → Except SetupErr Nat} {n : Nat} {out : List Nat}
    (h : mapExcept g (List.range n) = Except.ok out) :
    out.length = n ∧ ∀ d, d < n → g d = Except.ok (out.getD d 0) := by
  have h2 := mapExcept_forall₂ h
  obtain ⟨hlen, hget⟩ := List.forall₂_iff_get.mp h2
  rw [List.length_range] at hlen
  refine ⟨hlen.symm, fun d hd => ?_⟩
  have h₁ : d < (List.range n).length := by simpa [List.length_range] using hd
  have h₂ : d < out.length := hlen ▸ hd
  have := hget d h₁ h₂
  rw [List.get_range] at this
  rwa [getD_eq_get h₂]

/-- Result of `minGood`: per axis, the attained minimum of the projected
coordinates. -/
theorem minGood_spec {good : List (List Nat)} {n : Nat} {lo : List Nat}
    (h : minGood good n = Except.ok lo) :
    lo.length = n ∧ ∀ d, d < n →
      (lo.getD d 0 ∈ good.map (·.getD d 0) ∧
        ∀ b ∈ good.map (·.getD d 0), lo.getD d 0 ≤ b) := by
  obtain ⟨hlen, hall⟩ := mapExcept_range_ok h
  exact ⟨hlen, fun d hd => npMin_ok_spec (hall d hd)⟩

/-- Result of `maxGood`: per axis, one more than the attained maximum of the
projected coordinates. -/
theorem maxGood_spec {good : List (List Nat)} {n : Nat} {hi : List Nat}
    (h : maxGood good n = Except.ok hi) :
    hi.length = n ∧ ∀ d, d < n → ∃ mx,
      hi.getD d 0 = mx + 1 ∧ mx ∈ good.map (·.getD d 0) ∧
        ∀ b ∈ good.map (·.getD d 0), b ≤ mx := by
  obtain ⟨hlen, hall⟩ := mapExcept_range_ok h
  refine ⟨hlen, fun d hd => ?_⟩
  have := hall d hd
  cases hmx : npMax (good.map (·.getD d 0)) with
  | error e => rw [hmx] at this; simp [Except.map] at this
  | ok mx =>
    rw [hmx] at this
    simp only [Except.map, Except.ok.injEq] at this
    obtain ⟨hmem, hub⟩ := npMax_ok_spec hmx
    refine ⟨mx, ?_, hmem, hub⟩
    omega

/-- Indexing a `map` into `Int` commutes with `getD` at an in-bounds index. -/
theorem getD_map_intOfNat :
    ∀ {l : List Nat} {d : Nat}, d < l.length →
      (l.map (Int.ofNat ·)).getD d 0 = Int.ofNat (l.getD d 0) := by
  intro l
  induction l with
  | nil => intro d hd; cases hd
  | cons x xs ih =>
    intro d hd
    cases d with
    | zero => rfl
    | succ d => exact ih (Nat.lt_of_succ_lt_succ hd)

/-- Indexing a subtraction `zipWith` commutes with `getD` at an in-bounds
index. -/
theorem getD_zipWith_sub :
    ∀ {hi lo : List Nat} {d : Nat}, d < hi.length → d < lo.length →
      (List.zipWith (fun h l => h - l) hi lo).getD d 0 =
        hi.getD d 0 - lo.getD d 0 := by
  intro hi
  induction hi with
  | nil => intro lo d hd _; cases hd
  | cons x xs ih =>
    intro lo d hd hd2
    cases lo with
    | nil => cases hd2
    | cons y ys =>
      cases d with
      | zero => rfl
      | succ d =>
        exact ih (Nat.lt_of_succ_lt_succ hd) (Nat.lt_of_succ_lt_succ hd2)

/-- Decomposition of a successful `setup` run on a source with a configured
mask dataset: the ground-truth ROI is built from `minGood`/`maxGood` of the
mask's positive indices, over `st.dims.length` axes. -/
theorem setup_ok_gt_roi {s : Hdf5Source} {f : Store} {m : String}
    {mask : Dataset} {st : SourceState}
    (hm : s.gt_mask_dataset = some m) (hf : f m = some mask)
    (hset : setup s f = Except.ok st) :
    ∃ lo hi,
      minGood (positiveIndices mask) st.dims.length = Except.ok lo ∧
      maxGood (positiveIndices mask) st.dims.length = Except.ok hi ∧
      st.spec.gt_roi = some { offset := lo.map (Int.ofNat ·),
                              shape := List.zipWith (fun h l => h - l) hi lo } := by
  unfold setup at hset
  rw [hm] at hset
  cases hscan : scanDims f [some s.raw_dataset, some m, some m] none with
  | error e => rw [hscan] at hset; simp [Bind.bind, Except.bind] at hset
  | ok dims? =>
    rw [hscan] at hset
    simp only [Bind.bind, Except.bind] at hset
    cases dims? with
    | none => simp at hset
    | some dims =>
      unfold computeGtRoi at hset
      rw [hf] at hset
      dsimp only at hset
      cases hlo : minGood (positiveIndices mask) dims.length with
      | error e =>
        rw [hlo] at hset
        simp [Bind.bind, Except.bind, Except.map] at hset
      | ok lo =>
        rw [hlo] at hset
        cases hhi : maxGood (positiveIndices mask) dims.length with
        | error e =>
          rw [hhi] at hset
          simp [Bind.bind, Except.bind, Except.map] at hset
        | ok hi =>
          rw [hhi] at hset
          simp only [Bind.bind, Except.bind, Except.map, pure, Except.pure,
            Except.ok.injEq] at hset
          cases hset
          exact ⟨lo, hi, hlo, hhi, rfl⟩

/-- Decomposition of any successful `setup` run: the overall ROI is the dims
anchored at the zero offset, and the capability flags mirror the configured
dataset keys. -/
theorem setup_ok_state {s : Hdf5Source} {f : Store} {st : SourceState}
    (hset : setup s f = Except.ok st) :
    st.spec.roi = { offset := List.replicate st.dims.length 0,
                    shape := st.dims } ∧
    st.spec.has_gt = s.gt_dataset.isSome ∧
    st.spec.has_gt_mask = s.gt_mask_dataset.isSome := by
  unfold setup at hset
  cases hscan : scanDims f
      [some s.raw_dataset, s.gt_mask_dataset, s.gt_mask_dataset] none with
  | error e => rw [hscan] at hset; simp [Bind.bind, Except.bind] at hset
  | ok dims? =>
    rw [hscan] at hset
    simp only [Bind.bind, Except.bind] at hset
    cases dims? with
    | none => simp at hset
    | some dims =>
      dsimp only at hset
      cases hgm : s.gt_mask_dataset with
      | none =>
        rw [hgm] at hset
        simp only [pure, Except.pure, Except.ok.injEq] at hset
        cases hset
        exact ⟨rfl, rfl, rfl⟩
      | some m =>
        rw [hgm] at hset
        dsimp only at hset
        cases hgtr : computeGtRoi f m dims with
        | error e =>
          rw [hgtr] at hset
          simp [Except.map, Bind.bind, Except.bind] at hset
        | ok r =>
          rw [hgtr] at hset
          simp only [Except.map, Bind.bind, Except.bind, pure, Except.pure,
            Except.ok.injEq] at hset
          cases hset
          exact ⟨rfl, rfl, rfl⟩

/-- Every `request_batch` run errors out and issues no read against the
store: the pre-validation branches reject the request, and a validated
request dies on the unimported name `Volume` before the first `__read`. -/
theorem request_batch_always_errors (s : Hdf5Source) (st : Option SourceState)
    (f : Store) (req : BatchSpec) :
    ∃ e, request_batch s st f req = (Except.error e, []) := by
  cases st with
  | none => exact ⟨ReqErr.notInitialized, rfl⟩
  | some st =>
    by_cases c1 : VolumeType.GT_LABELS ∈ req.with_volumes ∧
        st.spec.has_gt = false
    · exact ⟨ReqErr.capabilityGT, by simp [request_batch, c1.1, c1.2]⟩
    · have h1 : (decide (VolumeType.GT_LABELS ∈ req.with_volumes) &&
          !st.spec.has_gt) = false := by
        by_cases hm : VolumeType.GT_LABELS ∈ req.with_volumes
        · cases hflag : st.spec.has_gt
          · exact absurd ⟨hm, hflag⟩ c1
          · simp [hm, hflag]
        · simp [hm]
      by_cases c2 : VolumeType.GT_MASK ∈ req.with_volumes ∧
          st.spec.has_gt_mask = false
      · exact ⟨ReqErr.capabilityGTMask,
          by simp [request_batch, h1, c2.1, c2.2]⟩
      · have h2 : (decide (VolumeType.GT_MASK ∈ req.with_volumes) &&
            !st.spec.has_gt_mask) = false := by
          by_cases hm : VolumeType.GT_MASK ∈ req.with_volumes
          · cases hflag : st.spec.has_gt_mask
            · exact absurd ⟨hm, hflag⟩ c2
            · simp [hm, hflag]
          · simp [hm]
        by_cases c3 : st.spec.roi.contains req.input_roi = true
        · by_cases c4 : st.spec.roi.contains req.output_roi = true
          · exact ⟨ReqErr.nameErrorVolume,
              by simp [request_batch, h1, h2, c3, c4]⟩
          · have c4f : st.spec.roi.contains req.output_roi = false := by
              simpa using c4
            exact ⟨ReqErr.outOfBounds req.output_roi st.spec.roi,
              by simp [request_batch, h1, h2, c3, c4f]⟩
        · have c3f : st.spec.roi.contains req.input_roi = false := by
            simpa using c3
          exact ⟨ReqErr.outOfBounds req.input_roi st.spec.roi,
            by simp [request_batch, h1, h2, c3f]⟩

/-! ## Claim theorems -/

/-- **C1** (code bug).  The claim says the overall dims are the elementwise
minimum over all present configured datasets, labels included, so on the
spec's own example — raw `(10,20,30)`, labels `(8,20,30)`, mask `(10,20,30)` —
the overall ROI shape should be `(8,20,30)`.  The code's loop iterates over
`[raw_dataset, gt_mask_dataset, gt_mask_dataset]`, never consulting the
labels dataset, and produces shape `(10,20,30)` instead. -/
theorem C1_setup_ignores_labels_shape :
    setup exSource1 exStore1 = Except.ok exState1 ∧
    exState1.spec.roi.shape = [10, 20, 30] ∧
    exState1.spec.roi.shape ≠ [8, 20, 30] := by
  refine ⟨by decide, rfl, by decide⟩

/-- **C2** (code bug).  The claim says `setup` fails with a configuration
error whenever a configured dataset key is missing from the store.  On
`exSource2`, whose labels key `labels` is absent from `exStore2`, `setup`
nevertheless succeeds (and even reports `has_gt = true`), because the
existence loop checks `[raw_dataset, gt_mask_dataset, gt_mask_dataset]` and
never checks `gt_dataset`. -/
theorem C2_setup_misses_absent_labels_key :
    (exStore2 "labels").isSome = false ∧
    exSource2.gt_dataset = some "labels" ∧
    setup exSource2 exStore2 = Except.ok exState2 := by
  refine ⟨rfl, rfl, by decide⟩

/-- **C3** (code bug).  The claim says an all-zero mask must raise an
explicit empty-mask error and never reach a min/max reduction over the empty
set of positive coordinates.  The code has no such guard: on `exSource3`,
whose mask is identically zero, `setup` reaches `np.min` on the empty
coordinate array and dies with the arithmetic empty-reduction error. -/
theorem C3_empty_mask_hits_empty_reduction :
    positiveIndices (constDataset [4, 4] 0) = [] ∧
    setup exSource3 exStore3 = Except.error SetupErr.emptyReduction := by
  refine ⟨by decide, by decide⟩

/-- **C9** (confirmed).  Before `setup` has run (state `none`, where the
Python object has no `spec`/`dims` attributes yet), both `get_spec` and
`request_batch` fail fast with the not-initialized error and issue no
storage read; neither returns a fabricated result. -/
theorem C9_fail_fast_before_setup (s : Hdf5Source) (f : Store)
    (req : BatchSpec) :
    get_spec none = Except.error ReqErr.notInitialized ∧
    request_batch s none f req = (Except.error ReqErr.notInitialized, []) :=
  ⟨rfl, rfl⟩

/-- **C4** (confirmed).  For every source with a configured mask dataset, if
`setup` succeeds then the cached ground-truth ROI is exactly the bounding box
of the mask's strictly positive elements: on every axis the offset is the
minimum of the positive-element coordinates (attained by one of them) and
the shape is the attained maximum plus one minus that minimum. -/
theorem C4_gt_roi_bounding_box (s : Hdf5Source) (f : Store) (m : String)
    (mask : Dataset) (st : SourceState)
    (hm : s.gt_mask_dataset = some m) (hf : f m = some mask)
    (hset : setup s f = Except.ok st) :
    gtRoiIsBoundingBox mask st := by
  obtain ⟨lo, hi, hlo, hhi, hroi⟩ := setup_ok_gt_roi hm hf hset
  obtain ⟨hlolen, hlospec⟩ := minGood_spec hlo
  obtain ⟨hhilen, hhispec⟩ := maxGood_spec hhi
  refine ⟨_, hroi, ?_⟩
  intro d hd
  obtain ⟨hmemlo, hlb⟩ := hlospec d hd
  obtain ⟨mx, hmx, hmemmx, hub⟩ := hhispec d hd
  refine ⟨lo.getD d 0, mx, ?_, ?_, ?_, ?_, ?_⟩
  · exact getD_map_intOfNat (by omega)
  · rw [getD_zipWith_sub (by omega) (by omega), hmx]
  · obtain ⟨idx, hidx, heq⟩ := List.mem_map.mp hmemlo
    exact ⟨idx, hidx, heq⟩
  · obtain ⟨idx, hidx, heq⟩ := List.mem_map.mp hmemmx
    exact ⟨idx, hidx, heq⟩
  · intro idx hidx
    exact ⟨hlb _ (List.mem_map_of_mem _ hidx),
           hub _ (List.mem_map_of_mem _ hidx)⟩

/-- Witness for C4: on the spec's own example — a `(5,5)` mask positive
exactly at `(1,1)` and `(3,3)` — `setup` computes ground-truth ROI offset
`(1,1)` and shape `(3,3)`, and that ROI is the positive elements' bounding
box. -/
theorem C4_witness :
    setup exSource4 exStore4 = Except.ok exState4 ∧
    exState4.spec.gt_roi = some { offset := [1, 1], shape := [3, 3] } ∧
    gtRoiIsBoundingBox exMask4 exState4 :=
  ⟨by decide, rfl, C4_gt_roi_bounding_box exSource4 exStore4 "mask" exMask4
    exState4 rfl rfl (by decide)⟩

/-- **C5** (confirmed).  After `setup`, a batch request that passes the
capability checks but whose input or output ROI is not contained in the
cached overall `roi` (the containment test is against `spec.roi`, never
`gt_roi`) is rejected with the out-of-bounds error carrying the offending
ROI and the source's own ROI, and no read is issued against the store. -/
theorem C5_out_of_bounds_rejected (s : Hdf5Source) (f : Store)
    (st : SourceState) (req : BatchSpec)
    (hset : setup s f = Except.ok st)
    (hgt : VolumeType.GT_LABELS ∈ req.with_volumes → st.spec.has_gt = true)
    (hmask : VolumeType.GT_MASK ∈ req.with_volumes →
      st.spec.has_gt_mask = true)
    (hoob : st.spec.roi.contains req.input_roi = false ∨
      st.spec.roi.contains req.output_roi = false) :
    ∃ bad, (bad = req.input_roi ∨ bad = req.output_roi) ∧
      st.spec.roi.contains bad = false ∧
      request_batch s (some st) f req =
        (Except.error (ReqErr.outOfBounds bad st.spec.roi), []) := by
  have h1 : (decide (VolumeType.GT_LABELS ∈ req.with_volumes) &&
      !st.spec.has_gt) = false := by
    by_cases hm : VolumeType.GT_LABELS ∈ req.with_volumes
    · simp [hm, hgt hm]
    · simp [hm]
  have h2 : (decide (VolumeType.GT_MASK ∈ req.with_volumes) &&
      !st.spec.has_gt_mask) = false := by
    by_cases hm : VolumeType.GT_MASK ∈ req.with_volumes
    · simp [hm, hmask hm]
    · simp [hm]
  by_cases hin : st.spec.roi.contains req.input_roi = true
  · rcases hoob with h | h
    · rw [hin] at h; cases h
    · exact ⟨req.output_roi, Or.inr rfl, h,
        by simp [request_batch, h1, h2, hin, h]⟩
  · have hin' : st.spec.roi.contains req.input_roi = false := by
      simpa using hin
    exact ⟨req.input_roi, Or.inl rfl, hin',
      by simp [request_batch, h1, h2, hin']⟩

/-- Witness for C5: `reqOOB`'s input ROI `[0,5)×[0,6)` sticks out of
`exState5`'s overall ROI `[0,4)×[0,6)`, and `request_batch` returns the
out-of-bounds error naming both ROIs, with no read issued. -/
theorem C5_witness :
    setup exSource5 exStore5 = Except.ok exState5 ∧
    ∃ bad, (bad = reqOOB.input_roi ∨ bad = reqOOB.output_roi) ∧
      exState5.spec.roi.contains bad = false ∧
      request_batch exSource5 (some exState5) exStore5 reqOOB =
        (Except.error (ReqErr.outOfBounds bad exState5.spec.roi), []) :=
  ⟨by decide,
   C5_out_of_bounds_rejected exSource5 exStore5 exState5 reqOOB (by decide)
     (by decide) (by decide) (Or.inl (by decide))⟩

/-- **C6** (confirmed).  After `setup`, a batch request asking for GT_LABELS
while `has_gt` is false, or for GT_MASK while `has_gt_mask` is false, is
rejected with a capability error and no read is issued against the store:
the request is not partially served. -/
theorem C6_capability_rejected (s : Hdf5Source) (f : Store)
    (st : SourceState) (req : BatchSpec)
    (hset : setup s f = Except.ok st)
    (hcap : (VolumeType.GT_LABELS ∈ req.with_volumes ∧
        st.spec.has_gt = false) ∨
      (VolumeType.GT_MASK ∈ req.with_volumes ∧
        st.spec.has_gt_mask = false)) :
    ∃ e, ReqErr.isCapability e = true ∧
      request_batch s (some st) f req = (Except.error e, []) := by
  by_cases h1 : VolumeType.GT_LABELS ∈ req.with_volumes ∧
      st.spec.has_gt = false
  · exact ⟨ReqErr.capabilityGT, rfl,
      by simp [request_batch, h1.1, h1.2]⟩
  · rcases hcap with h | h
    · exact absurd h h1
    · have hc1 : (decide (VolumeType.GT_LABELS ∈ req.with_volumes) &&
          !st.spec.has_gt) = false := by
        by_cases hm : VolumeType.GT_LABELS ∈ req.with_volumes
        · cases hflag : st.spec.has_gt
          · exact absurd ⟨hm, hflag⟩ h1
          · simp [hm, hflag]
        · simp [hm]
      exact ⟨ReqErr.capabilityGTMask, rfl,
        by simp [request_batch, hc1, h.1, h.2]⟩

/-- Witness for C6: asking `exSource4` (configured without a labels dataset,
so `has_gt = false`) for GT_LABELS is rejected with a capability error and
no read. -/
theorem C6_witness :
    ∃ e, ReqErr.isCapability e = true ∧
      request_batch exSource4 (some exState4) exStore4 reqCap =
        (Except.error e, []) :=
  C6_capability_rejected exSource4 exStore4 exState4 reqCap (by decide)
    (Or.inl ⟨by decide, by decide⟩)

/-- **C7** (code bug).  The precedence half of the claim holds of the
`resolution` property: a construction-time resolution is returned verbatim
whatever the store metadata says; otherwise the primary dataset's
`resolution` attribute is returned as given; otherwise all-ones of the
overall dimensionality together with the (non-fatal) warning flag.  The
final clause — "the batch is still produced successfully" — fails: after
the resolution has been resolved and attached, the first read statement
evaluates the unimported name `Volume` and every validated request dies
with the `NameError`, as the valid request `req7` over `exSource4` (which
hits the defaulted all-ones resolution) shows. -/
theorem C7_resolution_resolved_but_no_batch (s : Hdf5Source) (f : Store)
    (dims : List Nat) :
    (∀ r, s.specified_resolution = some r →
      resolution s f dims = (r, false)) ∧
    (∀ r, s.specified_resolution = none →
      (f s.raw_dataset).bind Dataset.resolutionAttr = some r →
      resolution s f dims = (r, false)) ∧
    (s.specified_resolution = none →
      (f s.raw_dataset).bind Dataset.resolutionAttr = none →
      resolution s f dims = (List.replicate dims.length 1, true)) ∧
    (resolution exSource4 exStore4 exState4.dims = ([1, 1], true) ∧
     request_batch exSource4 (some exState4) exStore4 req7 =
       (Except.error ReqErr.nameErrorVolume, [])) := by
  refine ⟨?_, ?_, ?_, by decide, by decide⟩
  · intro r hr; simp [resolution, hr]
  · intro r hs ha; simp [resolution, hs, ha]
  · intro hs ha; simp [resolution, hs, ha]

/-- Witness for C7: a construction-time `[5,5]` beats the stored `[2,2]`; a
source without an override returns the stored `[2,2]` as given; a source
over a store with no resolution attribute gets the all-ones default of the
right dimensionality with the warning flag. -/
theorem C7_witness :
    resolution exSource7a exStore5 [4, 6] = ([5, 5], false) ∧
    resolution exSource5 exStore5 [4, 6] = ([2, 2], false) ∧
    resolution exSource4 exStore4 [5, 5] = ([1, 1], true) :=
  ⟨(C7_resolution_resolved_but_no_batch exSource7a exStore5 [4, 6]).1
      [5, 5] rfl,
   (C7_resolution_resolved_but_no_batch exSource5 exStore5 [4, 6]).2.1
      [2, 2] rfl rfl,
   (C7_resolution_resolved_but_no_batch exSource4 exStore4 [5, 5]).2.2.1
      rfl rfl⟩

/-- **C8** (code bug).  The claim describes the intended read/store loop,
but no valid batch request is ever served: the module imports only
`VolumeType`, and the bare name `Volume` at the first read statement raises
the `NameError` before `__read` is evaluated.  Every `request_batch` run
returns an error with an empty read log; in particular the all-kinds
request `req8`, which passes every capability and geometry check on
`exSource5`, gets the `NameError` and no read is issued. -/
theorem C8_no_request_ever_served (s : Hdf5Source) (st : Option SourceState)
    (f : Store) (req : BatchSpec) :
    (∃ e, request_batch s st f req = (Except.error e, [])) ∧
    request_batch exSource5 (some exState5) exStore5 req8 =
      (Except.error ReqErr.nameErrorVolume, []) :=
  ⟨request_batch_always_errors s st f req, by decide⟩

/-- **C10** (code bug).  The claim reads the unconditional
`batch.volumes[VolumeType.RAW] = Volume(self.__read(...), ...)` statement
as an always-performed raw read, but that statement never completes:
resolving the unimported name `Volume` raises the `NameError` before the
`__read` argument is evaluated, so the raw dataset is never read and no
batch is returned.  Concretely, the fully valid request `req10` (which does
not even ask for RAW) gets the `NameError` with an empty read log. -/
theorem C10_raw_read_never_issued :
    VolumeType.RAW ∉ req10.with_volumes ∧
    request_batch exSource5 (some exState5) exStore5 req10 =
      (Except.error ReqErr.nameErrorVolume, []) :=
  ⟨by decide, by decide⟩

end Gunpowder
